import Mathlib

/-!
Shallow embedding of the `ext-java` TypeScript utility library: the two
`Optional<T>` variants (a richer one and a minimal one), the
`Objects.requireNonNull` helper and the two exception kinds.

Modelling conventions:
* A TypeScript value of declared type `T | null` is an `Option T`
  (`none` stands for `null`/`undefined`; JS loose equality `x == null`
  holds exactly for those two).
* JS truthiness on runtime values of `T` is an explicit parameter
  `tr : T → Bool`; the concrete type `JSVal` below instantiates it with
  the real JS truthiness table for primitives.
* Reference identity matters for the "empty singleton" claims, so each
  instance carries an allocation id: the class-initialisation-time
  singleton `EMPTY` has id `0`; every `new Optional(...)` performed by a
  factory gets a caller-supplied id `fresh` (an allocator never reuses
  `0`, which theorems state as the hypothesis `fresh ≠ 0`).
* Exceptions are the error side of `Except JSError`.
* Callbacks may have side effects, so operations that invoke a callback
  thread an abstract state `σ` through it exactly at the source's call
  sites; "invokes the callback once / never" becomes an equation on the
  resulting state.  A callback that the source null-checks with
  `Objects.requireNonNull` is passed as an `Option` of a function.
-/

/-- A JS primitive runtime value, used for concrete witnesses. -/
inductive JSVal where
  | num (n : Int)
  | nan
  | str (s : String)
  | bool (b : Bool)
  | obj (ref : Nat)
deriving DecidableEq, Repr

/-- JS truthiness for `JSVal`: `0`, `NaN`, `""` and `false` are falsy. -/
def jsTruthy : JSVal → Bool
  | .num n => n != 0
  | .nan => false
  | .str s => s != ""
  | .bool b => b
  | .obj _ => true

/-- The two exception kinds of the library: `NullPointerException`
(thrown without a message by `Objects.requireNonNull`) and
`NoSuchElementException` (which carries a message string). -/
inductive JSError where
  | nullPointer
  | noSuchElement (msg : String)
deriving DecidableEq, Repr

namespace Objects

/-- Model of `Objects.requireNonNull` (src/unnamed/part_000, lines 8-13):
throws `NullPointerException` if `value == null`, else returns it. -/
def requireNonNull {T : Type} (value : Option T) : Except JSError T :=
  match value with
  | none => .error .nullPointer
  | some v => .ok v

end Objects

/-- The data of an `Optional<T>` instance in either variant: the nullable
slot `value` plus an allocation id modelling reference identity. -/
structure Optional (T : Type) where
  id : Nat
  value : Option T
deriving DecidableEq, Repr

namespace RichOpt

/-- The richer variant's private constructor (src/unnamed/part_001,
lines 25-30): `if (value) this.value = value else this.value = null` —
the slot keeps the argument only when it is truthy. -/
def ctor {T : Type} (tr : T → Bool) (fresh : Nat) (value : Option T) : Optional T :=
  match value with
  | some v => if tr v then ⟨fresh, some v⟩ else ⟨fresh, none⟩
  | none => ⟨fresh, none⟩

/-- Source `Optional.EMPTY` (line 22): `new Optional<any>(null)` evaluated at
class-initialisation time; it gets the reserved id `0`. -/
def EMPTY {T : Type} : Optional T := ⟨0, none⟩

/-- Source `Optional.empty()` (lines 38-40): returns the shared `EMPTY`. -/
def empty {T : Type} : Optional T := EMPTY

/-- Source `Optional.of(value)` (lines 49-51):
`new Optional(Objects.requireNonNull(value))`. -/
def of {T : Type} (tr : T → Bool) (fresh : Nat) (value : Option T) :
    Except JSError (Optional T) :=
  match Objects.requireNonNull value with
  | .error e => .error e
  | .ok v => .ok (ctor tr fresh (some v))

/-- Source `Optional.ofNullable(value)` (lines 61-63):
`value == null ? this.empty() : this.of(value)`.  On the non-null branch
`this.of(value)` cannot throw (`requireNonNull` of a non-null value is
the identity), so its body is written as the constructor call directly
and `rich_of_some_eq_ofNullable` below records the agreement with `of`. -/
def ofNullable {T : Type} (tr : T → Bool) (fresh : Nat) (value : Option T) :
    Optional T :=
  match value with
  | none => empty
  | some v => ctor tr fresh (some v)

/-- Source `Optional.get()` (lines 72-77): throws
`NoSuchElementException('No value present.')` when the slot is null. -/
def get {T : Type} (o : Optional T) : Except JSError T :=
  match o.value with
  | none => .error (.noSuchElement "No value present.")
  | some v => .ok v

/-- Source `Optional.isPresent()` (lines 84-86): `this.value != null`. -/
def isPresent {T : Type} (o : Optional T) : Bool :=
  o.value.isSome

/-- Source `Optional.isEmpty()` (lines 94-96): `this.value == null`. -/
def isEmpty {T : Type} (o : Optional T) : Bool :=
  o.value.isNone

/-- Source `Optional.ifPresent(action)` (lines 106-110): calls the consumer on
the value iff present; the consumer's effect on the abstract state `σ`
is threaded explicitly. -/
def ifPresent {T σ : Type} (o : Optional T) (action : T → σ → σ) (s : σ) : σ :=
  match o.value with
  | none => s
  | some v => action v s

/-- Source `Optional.filter(predicate)` (lines 130-137):
`requireNonNull(predicate)`, then empty returns `this`, present returns
`this` or `empty()` by the predicate's verdict. -/
def filter {T σ : Type} (o : Optional T)
    (predicate : Option (T → σ → Bool × σ)) (s : σ) :
    Except JSError (Optional T) × σ :=
  match predicate with
  | none => (.error .nullPointer, s)
  | some p =>
    match o.value with
    | none => (.ok o, s)
    | some v =>
      let r := p v s
      (if r.1 then .ok o else .ok empty, r.2)

/-- Source `Optional.map(callback)` (lines 150-156): empty maps to `empty()`;
present returns `Optional.ofNullable(callback(this.value))`. -/
def map {T U σ : Type} (tr : U → Bool) (fresh : Nat) (o : Optional T)
    (callback : T → σ → Option U × σ) (s : σ) : Optional U × σ :=
  match o.value with
  | none => (empty, s)
  | some v =>
    let r := callback v s
    (ofNullable tr fresh r.1, r.2)

/-- Source `Optional.flatMap(mapper)` (lines 158-165): `requireNonNull(mapper)`,
empty returns `empty()`, present returns
`Objects.requireNonNull(mapper(this.value))`. -/
def flatMap {T U σ : Type} (o : Optional T)
    (mapper : Option (T → σ → Option (Optional U) × σ)) (s : σ) :
    Except JSError (Optional U) × σ :=
  match mapper with
  | none => (.error .nullPointer, s)
  | some m =>
    match o.value with
    | none => (.ok empty, s)
    | some v =>
      let r := m v s
      match r.1 with
      | none => (.error .nullPointer, r.2)
      | some res => (.ok res, r.2)

/-- Source `Optional.or(supplier)` (lines 167-174), transcribed exactly as
written: `requireNonNull(supplier)`; then `if (!this.isPresent()) return
this` and otherwise `return Objects.requireNonNull(supplier())`. -/
def or {T σ : Type} (o : Optional T)
    (supplier : Option (Unit → σ → Option (Optional T) × σ)) (s : σ) :
    Except JSError (Optional T) × σ :=
  match supplier with
  | none => (.error .nullPointer, s)
  | some sup =>
    if !isPresent o then (.ok o, s)
    else
      let r := sup () s
      match r.1 with
      | none => (.error .nullPointer, r.2)
      | some res => (.ok res, r.2)

/-- Source `Optional.orElse(other)` (lines 183-185):
`this.value != null ? this.value : other` (`other` may itself be null). -/
def orElse {T : Type} (o : Optional T) (other : Option T) : Option T :=
  match o.value with
  | none => other
  | some v => some v

/-- Source `Optional.orElseGet(supplier)` (lines 187-189):
`this.value != null ? this.value : Objects.requireNonNull(supplier())`. -/
def orElseGet {T σ : Type} (o : Optional T)
    (supplier : Unit → σ → Option T × σ) (s : σ) : Except JSError T × σ :=
  match o.value with
  | some v => (.ok v, s)
  | none =>
    let r := supplier () s
    match r.1 with
    | none => (.error .nullPointer, r.2)
    | some v => (.ok v, r.2)

/-- Source `Optional.orElseThrow()` (lines 191-196): throws
`NoSuchElementException('No value present')` — no trailing period. -/
def orElseThrow {T : Type} (o : Optional T) : Except JSError T :=
  match o.value with
  | none => .error (.noSuchElement "No value present")
  | some v => .ok v

end RichOpt

namespace MinOpt

/-- The minimal variant's private constructor
(src/src/util/Optional.ts, lines 24-29): same truthiness test as the
richer variant; the parameter is optional (`value?: T`). -/
def ctor {T : Type} (tr : T → Bool) (fresh : Nat) (value : Option T) : Optional T :=
  match value with
  | some v => if tr v then ⟨fresh, some v⟩ else ⟨fresh, none⟩
  | none => ⟨fresh, none⟩

/-- Minimal `Optional.EMPTY` (line 21): `new Optional<any>()`, i.e. the
constructor applied to `undefined`; reserved id `0`. -/
def EMPTY {T : Type} : Optional T := ⟨0, none⟩

/-- Minimal `Optional.empty()` (lines 37-39). -/
def empty {T : Type} : Optional T := EMPTY

/-- Minimal `Optional.of(value)` (lines 48-50): `new Optional(value)` —
note: no `requireNonNull` guard, unlike the richer variant. -/
def of {T : Type} (tr : T → Bool) (fresh : Nat) (value : Option T) : Optional T :=
  ctor tr fresh value

/-- Minimal `Optional.ofNullable(value)` (lines 60-62):
`value == null ? this.empty() : this.of(value)`. -/
def ofNullable {T : Type} (tr : T → Bool) (fresh : Nat) (value : Option T) :
    Optional T :=
  match value with
  | none => empty
  | some v => of tr fresh (some v)

/-- Minimal `Optional.get()` (lines 71-76): same text as the richer
variant's `get`. -/
def get {T : Type} (o : Optional T) : Except JSError T :=
  match o.value with
  | none => .error (.noSuchElement "No value present.")
  | some v => .ok v

/-- Minimal `Optional.isPresent()` (lines 83-85). -/
def isPresent {T : Type} (o : Optional T) : Bool :=
  o.value.isSome

/-- Minimal `Optional.ifPresent(callback)` (lines 95-99). -/
def ifPresent {T σ : Type} (o : Optional T) (callback : T → σ → σ) (s : σ) : σ :=
  match o.value with
  | none => s
  | some v => callback v s

/-- Minimal `Optional.map(callback)` (lines 112-118): same text as the
richer variant's `map`. -/
def map {T U σ : Type} (tr : U → Bool) (fresh : Nat) (o : Optional T)
    (callback : T → σ → Option U × σ) (s : σ) : Optional U × σ :=
  match o.value with
  | none => (empty, s)
  | some v =>
    let r := callback v s
    (ofNullable tr fresh r.1, r.2)

/-- Minimal `Optional.orElse(other)` (lines 127-129). -/
def orElse {T : Type} (o : Optional T) (other : Option T) : Option T :=
  match o.value with
  | none => other
  | some v => some v

end MinOpt

/-- A concrete present container holding `5`, as allocated by
`Optional.of(5)` with allocation id `1`. -/
def optFive : Optional JSVal := ⟨1, some (JSVal.num 5)⟩

/-- A concrete present container holding `7`, allocation id `2`. -/
def optSeven : Optional JSVal := ⟨2, some (JSVal.num 7)⟩

/-- A supplier that counts its invocations in the threaded state and
returns `optSeven`. -/
def countingSeven : Unit → Nat → Option (Optional JSVal) × Nat :=
  fun _ n => (some optSeven, n + 1)

/-- As the richer variant's `ofNullable` routes non-null values through
`of`, the two factories agree on non-null input. -/
theorem rich_of_some_eq_ofNullable {T : Type} (tr : T → Bool) (fresh : Nat) (v : T) :
    RichOpt.of tr fresh (some v) = .ok (RichOpt.ofNullable tr fresh (some v)) := rfl

/-- C5: `of(null)` fails with a NullPointerException-kind error and
never returns a container (the result is the error side of `Except`,
for every truthiness function and allocation id). -/
theorem of_null_throws_npe {T : Type} (tr : T → Bool) (fresh : Nat) :
    RichOpt.of tr fresh (none : Option T) = .error JSError.nullPointer := rfl

/-- C9: on an empty container `get()` fails with a
NoSuchElementException-kind error carrying exactly "No value present."
(trailing period) and `orElseThrow()` fails with the same kind carrying
exactly "No value present" (no period); on a present container both
return the held value. -/
theorem get_orElseThrow_contract {T : Type} (o : Optional T) :
    (o.value = none →
      RichOpt.get o = .error (JSError.noSuchElement "No value present.") ∧
      RichOpt.orElseThrow o = .error (JSError.noSuchElement "No value present")) ∧
    (∀ v, o.value = some v →
      RichOpt.get o = .ok v ∧ RichOpt.orElseThrow o = .ok v) := by
  constructor
  · intro h
    simp [RichOpt.get, RichOpt.orElseThrow, h]
  · intro v h
    simp [RichOpt.get, RichOpt.orElseThrow, h]

/-- Witness for C9 at the empty singleton and at a present container. -/
theorem get_orElseThrow_contract_witness :
    (RichOpt.get (⟨0, none⟩ : Optional JSVal) =
        .error (JSError.noSuchElement "No value present.") ∧
      RichOpt.orElseThrow (⟨0, none⟩ : Optional JSVal) =
        .error (JSError.noSuchElement "No value present")) ∧
    (RichOpt.get optFive = .ok (JSVal.num 5) ∧
      RichOpt.orElseThrow optFive = .ok (JSVal.num 5)) :=
  ⟨(get_orElseThrow_contract (⟨0, none⟩ : Optional JSVal)).1 rfl,
   (get_orElseThrow_contract optFive).2 (JSVal.num 5) rfl⟩

/-- C7: `map` on an empty container returns `empty()` with the threaded
state untouched (so the callback is never invoked), for every callback;
on a present container it performs exactly one callback invocation on
the held value and returns `ofNullable` of the result, so a callback
producing null yields the empty container rather than a failure. -/
theorem map_contract {T U σ : Type} (tr : U → Bool) (fresh : Nat)
    (o : Optional T) (s : σ) :
    (o.value = none → ∀ cb : T → σ → Option U × σ,
      RichOpt.map tr fresh o cb s = (RichOpt.empty, s)) ∧
    (∀ v, o.value = some v → ∀ cb : T → σ → Option U × σ,
      RichOpt.map tr fresh o cb s =
        (RichOpt.ofNullable tr fresh (cb v s).1, (cb v s).2)) ∧
    (∀ v, o.value = some v → ∀ cb : T → σ → Option U × σ,
      (cb v s).1 = none →
      RichOpt.map tr fresh o cb s = (RichOpt.empty, (cb v s).2)) := by
  refine ⟨?_, ?_, ?_⟩
  · intro h cb
    simp [RichOpt.map, h, RichOpt.empty]
  · intro v h cb
    simp [RichOpt.map, h]
  · intro v h cb hcb
    simp [RichOpt.map, h, hcb, RichOpt.ofNullable, RichOpt.empty]

/-- Witness for C7: mapping the identity over a present container with a
counting callback invokes it exactly once and re-wraps the value. -/
theorem map_contract_witness :
    RichOpt.map jsTruthy 3 optFive
      (fun v (n : Nat) => (some v, n + 1)) 0 = (⟨3, some (JSVal.num 5)⟩, 1) := by
  have h := (map_contract jsTruthy 3 optFive 0).2.1 (JSVal.num 5) rfl
      (fun v (n : Nat) => (some v, n + 1))
  rw [h]
  rfl

/-- C8: `filter` with a null predicate fails with a
NullPointerException-kind error; on an empty container it returns the
receiver itself with the state untouched (predicate never invoked); on a
present container it performs exactly one predicate invocation and
returns the receiver itself on true, `empty()` on false. -/
theorem filter_contract {T σ : Type} (o : Optional T) (s : σ) :
    (RichOpt.filter o (none : Option (T → σ → Bool × σ)) s =
      (.error JSError.nullPointer, s)) ∧
    (o.value = none → ∀ p : T → σ → Bool × σ,
      RichOpt.filter o (some p) s = (.ok o, s)) ∧
    (∀ v, o.value = some v → ∀ p : T → σ → Bool × σ, (p v s).1 = true →
      RichOpt.filter o (some p) s = (.ok o, (p v s).2)) ∧
    (∀ v, o.value = some v → ∀ p : T → σ → Bool × σ, (p v s).1 = false →
      RichOpt.filter o (some p) s = (.ok RichOpt.empty, (p v s).2)) := by
  refine ⟨rfl, ?_, ?_, ?_⟩
  · intro h p
    simp [RichOpt.filter, h]
  · intro v h p hp
    simp [RichOpt.filter, h, hp]
  · intro v h p hp
    simp [RichOpt.filter, h, hp]

/-- Witness for C8: a counting predicate accepting `5` keeps the
receiver, a counting predicate rejecting `5` yields `empty()`; each is
invoked exactly once. -/
theorem filter_contract_witness :
    RichOpt.filter optFive (some (fun _ (n : Nat) => (true, n + 1))) 0 =
      (.ok optFive, 1) ∧
    RichOpt.filter optFive (some (fun _ (n : Nat) => (false, n + 1))) 0 =
      (.ok RichOpt.empty, 1) :=
  ⟨(filter_contract optFive 0).2.2.1 (JSVal.num 5) rfl
      (fun _ (n : Nat) => (true, n + 1)) rfl,
   (filter_contract optFive 0).2.2.2 (JSVal.num 5) rfl
      (fun _ (n : Nat) => (false, n + 1)) rfl⟩

/-- C6: `flatMap` with a null mapper fails with a
NullPointerException-kind error; on an empty container it returns
`empty()` with the state untouched (mapper never invoked); on a present
container it performs exactly one mapper invocation on the held value
and returns exactly the `Optional` the mapper produced, failing with a
NullPointerException-kind error when that result is null. -/
theorem flatMap_contract {T U σ : Type} (o : Optional T) (s : σ) :
    (RichOpt.flatMap o (none : Option (T → σ → Option (Optional U) × σ)) s =
      (.error JSError.nullPointer, s)) ∧
    (o.value = none → ∀ m : T → σ → Option (Optional U) × σ,
      RichOpt.flatMap o (some m) s = (.ok RichOpt.empty, s)) ∧
    (∀ v, o.value = some v → ∀ m : T → σ → Option (Optional U) × σ,
      ∀ res, (m v s).1 = some res →
        RichOpt.flatMap o (some m) s = (.ok res, (m v s).2)) ∧
    (∀ v, o.value = some v → ∀ m : T → σ → Option (Optional U) × σ,
      (m v s).1 = none →
        RichOpt.flatMap o (some m) s = (.error JSError.nullPointer, (m v s).2)) := by
  refine ⟨rfl, ?_, ?_, ?_⟩
  · intro h m
    simp [RichOpt.flatMap, h]
  · intro v h m res hres
    simp [RichOpt.flatMap, h, hres]
  · intro v h m hres
    simp [RichOpt.flatMap, h, hres]

/-- Witness for C6: a counting mapper on a present container is invoked
exactly once and its produced `Optional` is returned as-is. -/
theorem flatMap_contract_witness :
    RichOpt.flatMap optFive
      (some (fun _ (n : Nat) => (some optSeven, n + 1))) 0 = (.ok optSeven, 1) :=
  (flatMap_contract optFive 0).2.2.1 (JSVal.num 5) rfl
    (fun _ (n : Nat) => (some optSeven, n + 1)) optSeven rfl

/-- C1 (evaluation of the code at the failing input): the presence test
in the richer variant's `or` is inverted.  On the present container
`optFive` with a counting supplier producing `optSeven`, the code
invokes the supplier (count goes to 1) and returns the supplier's
result; on the empty singleton with the same supplier it returns the
receiver without invoking the supplier (count stays 0). -/
theorem or_inverted_on_code :
    RichOpt.or optFive (some countingSeven) 0 = (.ok optSeven, 1) ∧
    RichOpt.or (RichOpt.EMPTY : Optional JSVal) (some countingSeven) 0 =
      (.ok RichOpt.EMPTY, 0) :=
  ⟨rfl, rfl⟩

/-- C2 (evaluation of the code at the failing input): `of(0)` succeeds
but produces an absent container — `requireNonNull` accepts `0`, then
the constructor's truthiness test discards it — contradicting `of`'s
documented guarantee that the returned instance is present. -/
theorem of_zero_absent_on_code :
    RichOpt.of jsTruthy 1 (some (JSVal.num 0)) = .ok (⟨1, none⟩ : Optional JSVal) ∧
    RichOpt.isPresent (⟨1, none⟩ : Optional JSVal) = false ∧
    RichOpt.get (⟨1, none⟩ : Optional JSVal) =
      .error (JSError.noSuchElement "No value present.") :=
  ⟨rfl, rfl, rfl⟩

/-- C10: for every non-null falsy value `v` (truthiness test false),
`of(v)` and `ofNullable(v)` in both variants return a container in the
absent state (`isPresent()` false, `get()` throws), and the allocated
container is a fresh instance distinct from the `EMPTY` singleton
whenever the allocator id is not the singleton's. -/
theorem falsy_of_gives_fresh_absent {T : Type} (tr : T → Bool) (v : T)
    (hv : tr v = false) (fresh : Nat) :
    RichOpt.of tr fresh (some v) = .ok (⟨fresh, none⟩ : Optional T) ∧
    RichOpt.ofNullable tr fresh (some v) = (⟨fresh, none⟩ : Optional T) ∧
    MinOpt.of tr fresh (some v) = (⟨fresh, none⟩ : Optional T) ∧
    MinOpt.ofNullable tr fresh (some v) = (⟨fresh, none⟩ : Optional T) ∧
    RichOpt.isPresent (⟨fresh, none⟩ : Optional T) = false ∧
    RichOpt.get (⟨fresh, none⟩ : Optional T) =
      .error (JSError.noSuchElement "No value present.") ∧
    (fresh ≠ 0 → (⟨fresh, none⟩ : Optional T) ≠ RichOpt.EMPTY) := by
  refine ⟨?_, ?_, ?_, ?_, rfl, rfl, ?_⟩
  · simp [RichOpt.of, Objects.requireNonNull, RichOpt.ctor, hv]
  · simp [RichOpt.ofNullable, RichOpt.ctor, hv]
  · simp [MinOpt.of, MinOpt.ctor, hv]
  · simp [MinOpt.ofNullable, MinOpt.of, MinOpt.ctor, hv]
  · intro hf
    simp [RichOpt.EMPTY, Optional.mk.injEq, hf]

/-- Witness for C10 at the falsy value `""` with allocation id `2`. -/
theorem falsy_of_gives_fresh_absent_witness :
    RichOpt.of jsTruthy 2 (some (JSVal.str "")) = .ok (⟨2, none⟩ : Optional JSVal) ∧
    MinOpt.of jsTruthy 2 (some (JSVal.str "")) = (⟨2, none⟩ : Optional JSVal) ∧
    (⟨2, none⟩ : Optional JSVal) ≠ RichOpt.EMPTY :=
  ⟨(falsy_of_gives_fresh_absent jsTruthy (JSVal.str "") (by decide) 2).1,
   (falsy_of_gives_fresh_absent jsTruthy (JSVal.str "") (by decide) 2).2.2.1,
   (falsy_of_gives_fresh_absent jsTruthy (JSVal.str "") (by decide) 2).2.2.2.2.2.2
     (by decide)⟩

/-- C3 counterexample: `of(false)` is reachable through the public `of`
factory, succeeds, and yields an absent container that is not the
`EMPTY` singleton — so not every reachable absent instance is the
singleton. -/
theorem absent_singleton_cex :
    RichOpt.of jsTruthy 1 (some (JSVal.bool false)) =
      .ok (⟨1, none⟩ : Optional JSVal) ∧
    RichOpt.isPresent (⟨1, none⟩ : Optional JSVal) = false ∧
    (⟨1, none⟩ : Optional JSVal) ≠ (RichOpt.EMPTY : Optional JSVal) :=
  ⟨rfl, rfl, by decide⟩

/-- C3 amended: `empty()` and `ofNullable(null)` return the `EMPTY`
singleton, and the transformation operations return the singleton in
their absent-producing branches (`map` on an empty receiver or with a
null mapper result, `flatMap` on an empty receiver, `filter` rejecting a
present value) — but `filter` and `or` on an empty receiver return the
receiver itself, which need not be the singleton, and `of`/`ofNullable`
on a falsy non-null value allocate a fresh absent instance distinct from
the singleton. -/
theorem absent_provenance {T σ : Type} (tr : T → Bool) (fresh : Nat)
    (o : Optional T) (s : σ) :
    (RichOpt.empty : Optional T) = RichOpt.EMPTY ∧
    RichOpt.ofNullable tr fresh (none : Option T) = RichOpt.EMPTY ∧
    (o.value = none → ∀ (U : Type) (trU : U → Bool) (cb : T → σ → Option U × σ),
      RichOpt.map trU fresh o cb s = (RichOpt.EMPTY, s)) ∧
    (∀ v, o.value = some v → ∀ (U : Type) (trU : U → Bool)
      (cb : T → σ → Option U × σ), (cb v s).1 = none →
      RichOpt.map trU fresh o cb s = (RichOpt.EMPTY, (cb v s).2)) ∧
    (o.value = none → ∀ (U : Type) (m : T → σ → Option (Optional U) × σ),
      RichOpt.flatMap o (some m) s = (.ok RichOpt.EMPTY, s)) ∧
    (∀ v, o.value = some v → ∀ p : T → σ → Bool × σ, (p v s).1 = false →
      RichOpt.filter o (some p) s = (.ok RichOpt.EMPTY, (p v s).2)) ∧
    (o.value = none → ∀ p : T → σ → Bool × σ,
      RichOpt.filter o (some p) s = (.ok o, s)) ∧
    (o.value = none → ∀ sup : Unit → σ → Option (Optional T) × σ,
      RichOpt.or o (some sup) s = (.ok o, s)) ∧
    (∀ v, tr v = false →
      RichOpt.of tr fresh (some v) = .ok (⟨fresh, none⟩ : Optional T) ∧
      (fresh ≠ 0 → (⟨fresh, none⟩ : Optional T) ≠ RichOpt.EMPTY)) := by
  refine ⟨rfl, rfl, ?_, ?_, ?_, ?_, ?_, ?_, ?_⟩
  · intro h U trU cb
    simp [RichOpt.map, h, RichOpt.empty]
  · intro v h U trU cb hcb
    simp [RichOpt.map, h, hcb, RichOpt.ofNullable, RichOpt.empty]
  · intro h U m
    simp [RichOpt.flatMap, h, RichOpt.empty]
  · intro v h p hp
    simp [RichOpt.filter, h, hp, RichOpt.empty]
  · intro h p
    simp [RichOpt.filter, h]
  · intro h sup
    simp [RichOpt.or, RichOpt.isPresent, h]
  · intro v hv
    constructor
    · simp [RichOpt.of, Objects.requireNonNull, RichOpt.ctor, hv]
    · intro hf
      simp [RichOpt.EMPTY, Optional.mk.injEq, hf]

/-- Witness for C3's amended statement: `filter` on a fresh absent
receiver (allocated by `of(NaN)`) returns that fresh receiver rather
than the singleton, and the fresh receiver differs from `EMPTY`. -/
theorem absent_provenance_witness :
    RichOpt.filter (⟨1, none⟩ : Optional JSVal)
      (some (fun _ (n : Nat) => (true, n + 1))) 0 =
      (.ok (⟨1, none⟩ : Optional JSVal), 0) ∧
    RichOpt.of jsTruthy 1 (some JSVal.nan) = .ok (⟨1, none⟩ : Optional JSVal) ∧
    (⟨1, none⟩ : Optional JSVal) ≠ RichOpt.EMPTY :=
  ⟨(absent_provenance jsTruthy 1 (⟨1, none⟩ : Optional JSVal) 0).2.2.2.2.2.2.1
      rfl (fun _ (n : Nat) => (true, n + 1)),
   ((absent_provenance (σ := Nat) jsTruthy 1 (⟨1, none⟩ : Optional JSVal) 0
      ).2.2.2.2.2.2.2.2 JSVal.nan rfl).1,
   ((absent_provenance (σ := Nat) jsTruthy 1 (⟨1, none⟩ : Optional JSVal) 0
      ).2.2.2.2.2.2.2.2 JSVal.nan rfl).2 (by decide)⟩

/-- C4 counterexample: on null input the two variants' `of` disagree —
the minimal variant returns an absent container while the richer one
fails with a NullPointerException-kind error. -/
theorem min_of_null_cex :
    MinOpt.of jsTruthy 1 (none : Option JSVal) = (⟨1, none⟩ : Optional JSVal) ∧
    RichOpt.of jsTruthy 1 (none : Option JSVal) = .error JSError.nullPointer :=
  ⟨rfl, rfl⟩

/-- C4 amended: for every operation the minimal variant exposes, on
every input except `of` applied to null, it produces the same result or
failure as the richer variant's operation of the same name; on null
input the richer `of` fails with NullPointerException while the minimal
`of` returns an absent container. -/
theorem min_refines_rich {T U σ : Type} (tr : T → Bool) (trU : U → Bool)
    (fresh : Nat) (o : Optional T) (v : T) (x : Option T) (other : Option T)
    (cb : T → σ → Option U × σ) (act : T → σ → σ) (s : σ) :
    (MinOpt.empty : Optional T) = RichOpt.empty ∧
    RichOpt.of tr fresh (some v) = .ok (MinOpt.of tr fresh (some v)) ∧
    MinOpt.ofNullable tr fresh x = RichOpt.ofNullable tr fresh x ∧
    MinOpt.get o = RichOpt.get o ∧
    MinOpt.isPresent o = RichOpt.isPresent o ∧
    MinOpt.ifPresent o act s = RichOpt.ifPresent o act s ∧
    MinOpt.map trU fresh o cb s = RichOpt.map trU fresh o cb s ∧
    MinOpt.orElse o other = RichOpt.orElse o other ∧
    MinOpt.of tr fresh (none : Option T) = (⟨fresh, none⟩ : Optional T) :=
  ⟨rfl, rfl, rfl, rfl, rfl, rfl, rfl, rfl, rfl⟩
